import Mathlib

/-!
Shallow embedding of the two munki condition scripts of this repository:
check-10.10-yosemite-compatibility.py (namespace Yosemite) and
check-10.13-highsierra-compatibility.py (namespace HighSierra).
Each Lean definition is a direct translation of the Python function of the
same name; the raw results of the external system queries (sysctl, ioreg,
SystemVersion.plist, pkgutil, the ConditionalItems.plist file) appear as
fields of HostFacts and Env.  A Python exception escaping a function is
modelled as none.
-/

/-- A line emitted by the logger helper of either script, as the triple
(message, status, info) passed to logger.  The printf-style padding of the
actual print statement is presentation only and is not modelled. -/
abbrev LogEntry := String × String × String

/-- The verbose configuration flag; both scripts ship with True. -/
def verbose : Bool := true

/-- logger (both scripts): prints one status line when verbose is set.  We model
the emitted evidence entries as a list. -/
def logger (message status info : String) : List LogEntry :=
  if verbose then [(message, status, info)] else []

/-- Split a character list on a separator character; adjacent separators yield
empty fields, as in splitting a string on a one-character separator. -/
def splitOnChar (sep : Char) : List Char → List (List Char)
  | [] => [[]]
  | c :: rest =>
    match splitOnChar sep rest with
    | h :: t => if c = sep then [] :: h :: t else (c :: h) :: t
    | [] => [[c]]

/-- Parse a nonempty all-digit character list as a decimal numeral. -/
def parseDecimal (cs : List Char) : Option Nat :=
  if !cs.isEmpty && cs.all Char.isDigit then
    some (cs.foldl (fun n c => n * 10 + (Char.toNat c - 48)) 0)
  else none

/-- Model of distutils.version.StrictVersion for plain dotted version strings:
two or three decimal components separated by dots, the third defaulting to 0.
A string of any other shape makes the StrictVersion constructor raise
ValueError, modelled as none.  (The optional pre-release suffix aN/bN of
StrictVersion never occurs in macOS ProductVersion values and is not
modelled.) -/
def strictVersionParse (s : String) : Option (Nat × Nat × Nat) :=
  match (splitOnChar '.' s.data).mapM parseDecimal with
  | some [a, b] => some (a, b, 0)
  | some [a, b, c] => some (a, b, c)
  | _ => none

/-- StrictVersion comparison: lexicographic integer comparison of the numeric
triples. -/
def verCompare : Nat × Nat × Nat → Nat × Nat × Nat → Ordering
  | (a1, a2, a3), (b1, b2, b3) =>
    match compare a1 b1 with
    | Ordering.eq =>
      match compare a2 b2 with
      | Ordering.eq => compare a3 b3
      | o => o
    | o => o

/-- Comparison of two version strings under the StrictVersion model; none when
either operand fails to parse. -/
def strictVersionCompare (a b : String) : Option Ordering :=
  match strictVersionParse a, strictVersionParse b with
  | some x, some y => some (verCompare x y)
  | _, _ => none

/-- Python membership test `x in values` where x may be None: None is never
equal to a string, so membership holds only for a present string in the list. -/
def inList (b : Option String) (values : List String) : Bool :=
  match b with
  | some s => List.contains values s
  | none => false

/-- Python "%s" rendering of an optional string: None prints as "None". -/
def pyStr : Option String → String
  | some s => s
  | none => "None"

/-- Immutable snapshot of the host facts the scripts read.  Each field models
the result of one external query:
cpuFeatures — the whitespace-split tokens of `sysctl -n machdep.cpu.features`;
boardIdRaw — the board-id value after the re.sub and strip in get_board_id;
cpu64Output — the raw stdout string of `sysctl -n hw.cpu64bit_capable`;
memsize — the integer parsed from `sysctl -n hw.memsize`;
productName, productVersion — from SystemVersion.plist;
hwModel — the stripped stdout of `sysctl -n hw.model`. -/
structure HostFacts where
  cpuFeatures : List String
  boardIdRaw : String
  cpu64Output : String
  memsize : Nat
  productName : String
  productVersion : String
  hwModel : String

/-- The ConditionalItems.plist dictionary, modelled as an association list in
which a later binding shadows an earlier one (the order in which Python builds
the dict from the concatenated item lists). -/
abbrev Store := List (String × Bool)

/-- Lookup in a dictionary built left to right from an item list: the last
binding of a key wins, as when Python inserts the pairs into a dict in order. -/
def dictGet {V : Type} (d : List (String × V)) (k : String) : Option V :=
  match d with
  | [] => none
  | (k2, v) :: rest =>
    match dictGet rest k with
    | some r => some r
    | none => if k2 = k then some v else none

/-- `dict(existing.items() + new.items())`: concatenation of the item lists,
read under the last-binding-wins lookup above. -/
def dictAdd {V : Type} (existing new : List (String × V)) : List (String × V) :=
  existing ++ new

/-- The merge step of append_conditional_items: when the plist file exists its
dictionary is read and merged, otherwise the new dictionary is written alone. -/
def mergeInto {V : Type} (store : Option (List (String × V))) (d : List (String × V)) :
    List (String × V) :=
  match store with
  | some existing => dictAdd existing d
  | none => d

/-- append_conditional_items (identical in both scripts): read-merge-write of
ConditionalItems.plist.  store is the current file contents (none when the file
does not exist); a failing plistlib.writePlist raises IOError, modelled by the
writeSucceeds flag and a none result.  On success the new file contents are
returned. -/
def append_conditional_items {V : Type} (dictionary : List (String × V))
    (store : Option (List (String × V))) (writeSucceeds : Bool) :
    Option (List (String × V)) :=
  let output_dict := mergeInto store dictionary
  if writeSucceeds then some output_dict else none

/-- External environment of one run: whether munki (and, for the High Sierra
script, gruntwork munki) is installed, the current ConditionalItems.plist
contents (none when the file does not exist), and whether a plist write would
succeed. -/
structure Env where
  munkiInstalled : Bool
  gruntworkMunkiInstalled : Bool
  store : Option Store
  writeSucceeds : Bool

namespace Yosemite

/-- Configuration of check-10.10-yosemite-compatibility.py: the script ships
with the ConditionalItems.plist update disabled. -/
def update_munki_conditional_items : Bool := false

/-- is_system_version_supported: pass iff the StrictVersion of ProductVersion
is below 10.10 and at least 10.6.6; `v >= w` on StrictVersion is
`verCompare v w ≠ lt`.  A malformed ProductVersion makes StrictVersion raise,
modelled as none. -/
def is_system_version_supported (product_name product_version : String) :
    Option (Bool × List LogEntry) :=
  match strictVersionParse product_version with
  | none => none
  | some v =>
    if verCompare v (10, 10, 0) ≠ Ordering.lt then
      some (false, logger ("System") (product_name ++ " " ++ product_version) ("Failed"))
    else if verCompare v (10, 6, 6) ≠ Ordering.lt then
      some (true, logger ("System") (product_name ++ " " ++ product_version) ("OK"))
    else
      some (false, logger ("System") (product_name ++ " " ++ product_version) ("Failed"))

/-- get_board_id: the stripped ioreg pipeline output, returned only when it
begins with the letters Mac (board_id.startswith in the source), otherwise
None. -/
def get_board_id (facts : HostFacts) : Option String :=
  if List.isPrefixOf (String.data ("Mac")) facts.boardIdRaw.data then
    some facts.boardIdRaw
  else none

/-- is_64bit_capable: the script tests Python `bool(results)` on the raw stdout
string of `sysctl -n hw.cpu64bit_capable`, which is true iff the string is
nonempty — the output "0" followed by a newline included. -/
def is_64bit_capable (facts : HostFacts) : Bool × List LogEntry :=
  if facts.cpu64Output != "" then
    (true, logger ("CPU") ("64 bit capable") ("OK"))
  else
    (false, logger ("CPU") ("not 64 bit capable") ("Failed"))

/-- has_required_amount_of_memory: at least 2048*1024*1024 bytes; the logged
gigabyte count uses Python 2 integer (floor) division. -/
def has_required_amount_of_memory (facts : HostFacts) : Bool × List LogEntry :=
  let minimum_memory := 2048 * 1024 * 1024
  let actual_memory := facts.memsize
  let actual_memory_gigabytes := actual_memory / 1024 / 1024 / 1024
  if minimum_memory ≤ actual_memory then
    (true, logger ("Memory")
      (toString actual_memory_gigabytes ++ " GB physical memory installed") ("OK"))
  else
    (false, logger ("Memory")
      (toString actual_memory_gigabytes ++ " GB installed, 2 GB required") ("Failed"))

/-- is_virtual_machine: true iff the VMM token occurs among the CPU feature
flags; logs only in the positive case. -/
def is_virtual_machine (facts : HostFacts) : Bool × List LogEntry :=
  if List.contains facts.cpuFeatures ("VMM") then
    (true, logger ("Board ID") ("Virtual machine") ("OK"))
  else
    (false, [])

/-- The Release A board-id allowlist, transcribed verbatim from the source.
The source lines 208-209 lack a separating comma, so Python adjacent
string-literal concatenation joins Mac-F2218EC8 and Mac-F2218FA9 into the
single entry visible below. -/
def platform_support_values : List String := [
  "Mac-00BE6ED71E35EB86",
  "Mac-031AEE4D24BFF0B1",
  "Mac-031B6874CF7F642A",
  "Mac-189A3D4F975D5FFC",
  "Mac-27ADBB7B4CEE8E61",
  "Mac-2BD1B31983FE1663",
  "Mac-2E6FAB96566FE58C",
  "Mac-35C1E88140C3E6CF",
  "Mac-35C5E08120C7EEAF",
  "Mac-3CBD00234E554E41",
  "Mac-42FD25EABCABB274",
  "Mac-4B7AC7E43945597E",
  "Mac-4BC72D62AD45599E",
  "Mac-50619A408DB004DA",
  "Mac-66F35F19FE2A0D05",
  "Mac-6F01561E16C75D06",
  "Mac-742912EFDBEE19B3",
  "Mac-77EB7D7DAF985301",
  "Mac-7BA5B2794B2CDB12",
  "Mac-7DF21CB3ED6977E5",
  "Mac-7DF2A3B5E5D671ED",
  "Mac-81E3E92DD6088272",
  "Mac-8ED6AF5B48C039E1",
  "Mac-942452F5819B1C1B",
  "Mac-942459F5819B171B",
  "Mac-94245A3940C91C80",
  "Mac-94245B3640C91C81",
  "Mac-942B59F58194171B",
  "Mac-942B5BF58194151B",
  "Mac-942C5DF58193131B",
  "Mac-AFD8A9D944EA4843",
  "Mac-C08A6BB70A942AC2",
  "Mac-C3EC7CD22292981F",
  "Mac-F2208EC8",
  "Mac-F2218EA9",
  "Mac-F2218EC8Mac-F2218FA9",
  "Mac-F2218FC8",
  "Mac-F221BEC8",
  "Mac-F221DCC8",
  "Mac-F222BEC8",
  "Mac-F2238AC8",
  "Mac-F2238BAE",
  "Mac-F223BEC8",
  "Mac-F22586C8",
  "Mac-F22587A1",
  "Mac-F22587C8",
  "Mac-F22589C8",
  "Mac-F2268AC8",
  "Mac-F2268CC8",
  "Mac-F2268DAE",
  "Mac-F2268DC8",
  "Mac-F2268EC8",
  "Mac-F226BEC8",
  "Mac-F22788AA",
  "Mac-F227BEC8",
  "Mac-F22C86C8",
  "Mac-F22C89C8",
  "Mac-F22C8AC8",
  "Mac-F42386C8",
  "Mac-F42388C8",
  "Mac-F4238BC8",
  "Mac-F4238CC8",
  "Mac-F42C86C8",
  "Mac-F42C88C8",
  "Mac-F42C89C8",
  "Mac-F42D86A9",
  "Mac-F42D86C8",
  "Mac-F42D88C8",
  "Mac-F42D89A9",
  "Mac-F42D89C8",
  "Mac-F60DEB81FF30ACF6",
  "Mac-F65AE981FFA204ED",
  "Mac-FA842E06C61E91C5",
  "Mac-FC02E91DDD3FA6A4"]

/-- is_supported_board_id: a virtual machine passes immediately; otherwise the
board id (possibly None) is tested for membership in the allowlist, with the
corresponding OK or Failed evidence line. -/
def is_supported_board_id (facts : HostFacts) : Bool × List LogEntry :=
  let vm := is_virtual_machine facts
  if vm.1 then
    (true, vm.2)
  else
    let board_id := get_board_id facts
    if inList board_id platform_support_values then
      (true, vm.2 ++ logger ("Board ID") (pyStr board_id) ("OK"))
    else
      (false, vm.2 ++ logger ("Board ID")
        ("\"" ++ pyStr board_id ++ "\" is not supported") ("Failed"))

/-- The check-and-decide part of main (source lines 277-288): run the four
checks and form the exit code together with the yosemite_supported flag; none
models the ValueError escaping from StrictVersion on a malformed
ProductVersion. -/
def verdict (facts : HostFacts) : Option (Nat × Bool) :=
  let board_id_passed := (is_supported_board_id facts).1
  let memory_passed := (has_required_amount_of_memory facts).1
  let cpu_passed := (is_64bit_capable facts).1
  match is_system_version_supported facts.productName facts.productVersion with
  | none => none
  | some sysv =>
    if board_id_passed && memory_passed && cpu_passed && sysv.1 then
      some (0, true)
    else
      some (1, false)

/-- main: the verdict followed by the conditional ConditionalItems.plist update
and the exit code.  Returns the exit code and the final store contents; none
models an uncaught exception aborting the process. -/
def main (facts : HostFacts) (env : Env) : Option (Nat × Option Store) :=
  match verdict facts with
  | none => none
  | some (code, flag) =>
    if env.munkiInstalled && update_munki_conditional_items then
      match append_conditional_items [("yosemite_supported", flag)] env.store
          env.writeSucceeds with
      | none => none
      | some st => some (code, some st)
    else
      some (code, env.store)

end Yosemite

namespace HighSierra

/-- Configuration of check-10.13-highsierra-compatibility.py: the script ships
with the ConditionalItems.plist update enabled. -/
def update_munki_conditional_items : Bool := true

/-- is_system_version_supported: pass iff the StrictVersion of ProductVersion
is below 10.13 and at least 10.8; a malformed ProductVersion makes
StrictVersion raise, modelled as none. -/
def is_system_version_supported (product_name product_version : String) :
    Option (Bool × List LogEntry) :=
  match strictVersionParse product_version with
  | none => none
  | some v =>
    if verCompare v (10, 13, 0) ≠ Ordering.lt then
      some (false, logger ("System") (product_name ++ " " ++ product_version) ("Failed"))
    else if verCompare v (10, 8, 0) ≠ Ordering.lt then
      some (true, logger ("System") (product_name ++ " " ++ product_version) ("OK"))
    else
      some (false, logger ("System") (product_name ++ " " ++ product_version) ("Failed"))

/-- get_board_id: identical to the Yosemite version. -/
def get_board_id (facts : HostFacts) : Option String :=
  if List.isPrefixOf (String.data ("Mac")) facts.boardIdRaw.data then
    some facts.boardIdRaw
  else none

/-- is_virtual_machine: identical to the Yosemite version. -/
def is_virtual_machine (facts : HostFacts) : Bool × List LogEntry :=
  if List.contains facts.cpuFeatures ("VMM") then
    (true, logger ("Board ID") ("Virtual machine") ("OK"))
  else
    (false, [])

/-- get_current_model: the stripped stdout of `sysctl -n hw.model`. -/
def get_current_model (facts : HostFacts) : String :=
  facts.hwModel

/-- The Release B unsupported-model denylist, transcribed verbatim. -/
def non_supported_models : List String := [
  "iMac4,1",
  "iMac4,2",
  "iMac5,1",
  "iMac5,2",
  "iMac6,1",
  "iMac7,1",
  "iMac8,1",
  "iMac9,1",
  "MacBook1,1",
  "MacBook2,1",
  "MacBook3,1",
  "MacBook4,1",
  "MacBook5,1",
  "MacBook5,2",
  "MacBookAir1,1",
  "MacBookAir2,1",
  "MacBookPro1,1",
  "MacBookPro1,2",
  "MacBookPro2,1",
  "MacBookPro2,2",
  "MacBookPro3,1",
  "MacBookPro4,1",
  "MacBookPro5,1",
  "MacBookPro5,2",
  "MacBookPro5,3",
  "MacBookPro5,4",
  "MacBookPro5,5",
  "Macmini1,1",
  "Macmini2,1",
  "Macmini3,1",
  "MacPro1,1",
  "MacPro2,1",
  "MacPro3,1",
  "MacPro4,1",
  "Xserve1,1",
  "Xserve2,1",
  "Xserve3,1"]

/-- is_supported_model: denylist membership test — any model identifier not in
the list passes (default-allow), the empty string included. -/
def is_supported_model (facts : HostFacts) : Bool × List LogEntry :=
  let current_model := get_current_model facts
  if List.contains non_supported_models current_model then
    (false, logger ("Model") ("\"" ++ current_model ++ "\" is not supported") ("Failed"))
  else
    (true, logger ("Model") current_model ("OK"))

/-- The Release B board-id allowlist, transcribed verbatim. -/
def platform_support_values : List String := [
  "Mac-00BE6ED71E35EB86",
  "Mac-031AEE4D24BFF0B1",
  "Mac-031B6874CF7F642A",
  "Mac-06F11F11946D27C5",
  "Mac-06F11FD93F0323C5",
  "Mac-189A3D4F975D5FFC",
  "Mac-27ADBB7B4CEE8E61",
  "Mac-2BD1B31983FE1663",
  "Mac-2E6FAB96566FE58C",
  "Mac-35C1E88140C3E6CF",
  "Mac-35C5E08120C7EEAF",
  "Mac-3CBD00234E554E41",
  "Mac-42FD25EABCABB274",
  "Mac-473D31EABEB93F9B",
  "Mac-4B682C642B45593E",
  "Mac-4B7AC7E43945597E",
  "Mac-4BC72D62AD45599E",
  "Mac-50619A408DB004DA",
  "Mac-551B86E5744E2388",
  "Mac-65CE76090165799A",
  "Mac-66E35819EE2D0D05",
  "Mac-66F35F19FE2A0D05",
  "Mac-6F01561E16C75D06",
  "Mac-742912EFDBEE19B3",
  "Mac-77EB7D7DAF985301",
  "Mac-77F17D7DA9285301",
  "Mac-7BA5B2794B2CDB12",
  "Mac-7BA5B2D9E42DDD94",
  "Mac-7DF21CB3ED6977E5",
  "Mac-7DF2A3B5E5D671ED",
  "Mac-81E3E92DD6088272",
  "Mac-8ED6AF5B48C039E1",
  "Mac-90BE64C3CB5A9AEB",
  "Mac-937CB26E2E02BB01",
  "Mac-942452F5819B1C1B",
  "Mac-942459F5819B171B",
  "Mac-94245A3940C91C80",
  "Mac-94245B3640C91C81",
  "Mac-942B59F58194171B",
  "Mac-942B5BF58194151B",
  "Mac-942C5DF58193131B",
  "Mac-9AE82516C7C6B903",
  "Mac-9F18E312C5C2BF0B",
  "Mac-A369DDC4E67F1C45",
  "Mac-A5C67F76ED83108C",
  "Mac-AFD8A9D944EA4843",
  "Mac-B4831CEBD52A0C4C",
  "Mac-B809C3757DA9BB8D",
  "Mac-BE088AF8C5EB4FA2",
  "Mac-BE0E8AC46FE800CC",
  "Mac-C08A6BB70A942AC2",
  "Mac-C3EC7CD22292981F",
  "Mac-CAD6701F7CEA0921",
  "Mac-CF21D135A7D34AA6",
  "Mac-DB15BD556843C820",
  "Mac-E43C1C25D4880AD6",
  "Mac-EE2EBD4B90B839A8",
  "Mac-F2208EC8",
  "Mac-F221BEC8",
  "Mac-F221DCC8",
  "Mac-F222BEC8",
  "Mac-F2238AC8",
  "Mac-F2238BAE",
  "Mac-F22586C8",
  "Mac-F22589C8",
  "Mac-F2268CC8",
  "Mac-F2268DAE",
  "Mac-F2268DC8",
  "Mac-F22C89C8",
  "Mac-F22C8AC8",
  "Mac-F305150B0C7DEEEF",
  "Mac-F60DEB81FF30ACF6",
  "Mac-F65AE981FFA204ED",
  "Mac-FA842E06C61E91C5",
  "Mac-FC02E91DDD3FA6A4",
  "Mac-FFE5EF870D7BA81A"]

/-- is_supported_board_id (Release B): plain allowlist membership of the board
id (possibly None); unlike Release A there is no virtual-machine exemption
inside this check. -/
def is_supported_board_id (facts : HostFacts) : Bool × List LogEntry :=
  let board_id := get_board_id facts
  if inList board_id platform_support_values then
    (true, logger ("Board ID") (pyStr board_id) ("OK"))
  else
    (false, logger ("Board ID")
      ("\"" ++ pyStr board_id ++ "\" is not supported") ("Failed"))

/-- The check-and-decide part of main (source lines 319-332): the three checks
run first (so a malformed ProductVersion aborts the run, modelled as none),
then a virtual machine is immediately supported, otherwise all three checks
must pass. -/
def verdict (facts : HostFacts) : Option (Nat × Bool) :=
  let model_passed := (is_supported_model facts).1
  let board_id_passed := (is_supported_board_id facts).1
  match is_system_version_supported facts.productName facts.productVersion with
  | none => none
  | some sysv =>
    if (is_virtual_machine facts).1 then
      some (0, true)
    else if model_passed && board_id_passed && sysv.1 then
      some (0, true)
    else
      some (1, false)

/-- main: the verdict followed by the conditional ConditionalItems.plist update
(enabled when munki or gruntwork munki is installed) and the exit code; none
models an uncaught exception aborting the process. -/
def main (facts : HostFacts) (env : Env) : Option (Nat × Option Store) :=
  match verdict facts with
  | none => none
  | some (code, flag) =>
    if (env.munkiInstalled || env.gruntworkMunkiInstalled) &&
        update_munki_conditional_items then
      match append_conditional_items [("high_sierra_supported", flag)] env.store
          env.writeSucceeds with
      | none => none
      | some st => some (code, some st)
    else
      some (code, env.store)

end HighSierra

/-- The four Release A check results of a host, in the order (board id, CPU,
memory, OS version); the last is the optional Bool produced by the fallible
version check (none when ProductVersion is malformed). -/
def yosemiteChecks (f : HostFacts) : Bool × Bool × Bool × Option Bool :=
  ((Yosemite.is_supported_board_id f).1, (Yosemite.is_64bit_capable f).1,
   (Yosemite.has_required_amount_of_memory f).1,
   Option.map Prod.fst
     (Yosemite.is_system_version_supported f.productName f.productVersion))

/-- A host on which all four Release A checks pass: allowlisted board id,
nonempty 64-bit sysctl output, 8 GiB of memory, OS X 10.9.5. -/
def allPassFacts : HostFacts :=
  ⟨[], "Mac-F2208EC8", "1\n", 8589934592, "Mac OS X", "10.9.5", "MacBookPro10,1"⟩

/-- The same host with only the memory fact changed to a failing value. -/
def lowMemFacts : HostFacts :=
  ⟨[], "Mac-F2208EC8", "1\n", 0, "Mac OS X", "10.9.5", "MacBookPro10,1"⟩

/-- A host reporting exactly 2*1024^3 bytes of memory. -/
def memBoundaryPassFacts : HostFacts := ⟨[], "", "", 2147483648, "", "", ""⟩

/-- A host reporting 2*1024^3 - 1 bytes of memory. -/
def memBoundaryFailFacts : HostFacts := ⟨[], "", "", 2147483647, "", "", ""⟩

/-- A host whose CPU reports the 64-bit-capable flag as false: the stdout of
sysctl -n hw.cpu64bit_capable is the digit 0 followed by a newline. -/
def cpuFlagOffFacts : HostFacts := ⟨[], "", "0\n", 0, "", "", ""⟩

/-- A host on which the board-id query yields nothing usable (empty pipeline
output, no Mac prefix), the CPU query produces no output, and the model
identifier is empty. -/
def missingFacts : HostFacts := ⟨[], "", "", 0, "", "", ""⟩

/-- A virtual machine (VMM among the CPU features) on which each of the three
non-VM Release B checks fails: denylisted model, board id absent from the
allowlist, OS version below 10.8. -/
def vmFacts : HostFacts := ⟨["VMM"], "Mac-NONE", "", 0, "", "10.4.11", "iMac4,1"⟩

/-- A non-VM host whose board id is the first of the two identifiers joined by
the malformed Release A table entry. -/
def boardEC8Facts : HostFacts := ⟨[], "Mac-F2218EC8", "", 0, "", "", ""⟩

/-- A non-VM host whose board id equals the concatenated malformed entry
itself. -/
def boardConcatFacts : HostFacts := ⟨[], "Mac-F2218EC8Mac-F2218FA9", "", 0, "", "", ""⟩

/-- A pre-existing ConditionalItems.plist dictionary holding one unrelated
key. -/
def exStore : List (String × Bool) := [("unrelated_item", true)]

/-- Environment with munki installed, an existing store holding one unrelated
key, and a working plist writer. -/
def writeOkEnv : Env := ⟨true, false, some exStore, true⟩

/-- Environment with munki installed, an existing empty store, and a failing
plist writer. -/
def writeFailEnv : Env := ⟨true, false, some [], false⟩

/-- Appending a single binding to a dictionary item list: the lookup of the
appended key yields the new value, every other lookup is unchanged. -/
theorem dictGet_dictAdd_single {V : Type} (d : List (String × V)) (key k : String)
    (v : V) :
    dictGet (dictAdd d [(key, v)]) k = if key = k then some v else dictGet d k := by
  induction d with
  | nil => simp [dictGet, dictAdd]
  | cons p rest ih =>
    obtain ⟨k2, v2⟩ := p
    simp only [dictAdd, List.cons_append] at ih ⊢
    rw [dictGet, ih]
    by_cases h : key = k
    · simp [h]
    · simp only [if_neg h]
      rw [dictGet]

/-- On a host that is not a virtual machine, the Release A board-id check is
the allowlist membership test of the board id. -/
theorem yosemite_board_not_vm (f : HostFacts)
    (h : (Yosemite.is_virtual_machine f).1 = false) :
    (Yosemite.is_supported_board_id f).1 =
      inList (Yosemite.get_board_id f) Yosemite.platform_support_values := by
  cases hl : inList (Yosemite.get_board_id f) Yosemite.platform_support_values <;>
    simp [Yosemite.is_supported_board_id, h, hl]

/-- C3: the claim reads: the Release A CPU check passes iff the 64-bit-capable
flag is true.  The source instead tests Python bool() of the raw sysctl output
string, so a CPU whose flag is reported as 0 (stdout the digit 0 plus newline,
a nonempty string) also passes, and is even logged as 64 bit capable; the
check fails only when the query produces no output at all. -/
theorem yosemite_cpu_check_truthiness :
    Yosemite.is_64bit_capable cpuFlagOffFacts =
      (true, [("CPU", "64 bit capable", "OK")]) ∧
    (Yosemite.is_64bit_capable missingFacts).1 = false := ⟨rfl, rfl⟩

/-- C5: the Release A memory check passes iff the reported memory is at least
2*1024^3 bytes; exactly 2*1024^3 passes and 2*1024^3 - 1 fails. -/
theorem memory_check_threshold :
    (∀ f : HostFacts,
      (Yosemite.has_required_amount_of_memory f).1 = true ↔
        2 * 1024 ^ 3 ≤ f.memsize) ∧
    (Yosemite.has_required_amount_of_memory memBoundaryPassFacts).1 = true ∧
    (Yosemite.has_required_amount_of_memory memBoundaryFailFacts).1 = false := by
  refine ⟨fun f => ?_, by decide, by decide⟩
  simp only [Yosemite.has_required_amount_of_memory]
  split
  · next hc => simp only [true_iff]; norm_num at hc ⊢; omega
  · next hc => simp only [Bool.false_eq_true, false_iff]; norm_num at hc ⊢; omega

/-- C6 counterexample: the claim reads: a missing/unreadable model fact makes
the corresponding rule fail.  On a host whose model identifier is empty the
Release B model rule passes (the empty string is not in the denylist), with an
OK evidence line. -/
theorem highsierra_empty_model_passes :
    HighSierra.is_supported_model missingFacts = (true, [("Model", "", "OK")]) := rfl

/-- C6 amended: a missing/unreadable board id (pipeline output without the Mac
prefix) makes the board-id rule of either release fail with the explicit
evidence line quoting None, without crashing; a missing/empty model identifier
does not fail the Release B model rule — it is absent from the denylist, so
the rule passes — and evaluation still produces its evidence line. -/
theorem rules_on_missing_facts (f : HostFacts)
    (hvm : List.contains f.cpuFeatures ("VMM") = false)
    (hb : List.isPrefixOf (String.data ("Mac")) f.boardIdRaw.data = false)
    (hm : f.hwModel = "") :
    Yosemite.is_supported_board_id f =
      (false, [("Board ID", "\"None\" is not supported", "Failed")]) ∧
    HighSierra.is_supported_board_id f =
      (false, [("Board ID", "\"None\" is not supported", "Failed")]) ∧
    HighSierra.is_supported_model f = (true, [("Model", "", "OK")]) := by
  refine ⟨?_, ?_, ?_⟩
  · simp_all [Yosemite.is_supported_board_id, Yosemite.is_virtual_machine,
      Yosemite.get_board_id, inList, pyStr, logger, verbose]
  · simp_all [HighSierra.is_supported_board_id, HighSierra.get_board_id, inList,
      pyStr, logger, verbose]
  · simp_all [HighSierra.is_supported_model, HighSierra.get_current_model,
      HighSierra.non_supported_models, logger, verbose]

/-- C6 amended witness at a concrete host. -/
theorem rules_on_missing_facts_witness :
    Yosemite.is_supported_board_id missingFacts =
      (false, [("Board ID", "\"None\" is not supported", "Failed")]) ∧
    HighSierra.is_supported_model missingFacts = (true, [("Model", "", "OK")]) :=
  ⟨(rules_on_missing_facts missingFacts rfl rfl rfl).1,
   (rules_on_missing_facts missingFacts rfl rfl rfl).2.2⟩

/-- C8: the claim reads: a persistence write failure must not change the
verdict or exit code.  In the source, a failing plistlib.writePlist in
append_conditional_items raises an uncaught exception through main, so the
process aborts (exit status 1 with a traceback) even when the computed verdict
was Supported: here a supported virtual machine with munki installed and a
failing writer. -/
theorem highsierra_write_failure_crashes :
    HighSierra.verdict vmFacts = some (0, true) ∧
    HighSierra.main vmFacts writeFailEnv = none := ⟨rfl, rfl⟩

/-- C9: the Release A allowlist carries the two identifiers Mac-F2218EC8 and
Mac-F2218FA9 concatenated into one malformed entry; a non-VM host with either
intended identifier fails the board-id check, while the concatenated string
itself passes. -/
theorem yosemite_concatenated_board_id :
    (List.contains Yosemite.platform_support_values ("Mac-F2218EC8Mac-F2218FA9") = true ∧
     List.contains Yosemite.platform_support_values ("Mac-F2218EC8") = false ∧
     List.contains Yosemite.platform_support_values ("Mac-F2218FA9") = false) ∧
    (∀ f : HostFacts, (Yosemite.is_virtual_machine f).1 = false →
      ((f.boardIdRaw = "Mac-F2218EC8" ∨ f.boardIdRaw = "Mac-F2218FA9") →
        (Yosemite.is_supported_board_id f).1 = false) ∧
      (f.boardIdRaw = "Mac-F2218EC8Mac-F2218FA9" →
        (Yosemite.is_supported_board_id f).1 = true)) := by
  refine ⟨⟨by decide, by decide, by decide⟩, fun f hvm => ⟨fun hb => ?_, fun hb => ?_⟩⟩
  · rw [yosemite_board_not_vm f hvm]
    rcases hb with hb | hb <;>
      simp [Yosemite.get_board_id, hb, inList, Yosemite.platform_support_values]
  · rw [yosemite_board_not_vm f hvm]
    simp [Yosemite.get_board_id, hb, inList, Yosemite.platform_support_values]

/-- C9 witness at concrete hosts. -/
theorem yosemite_concatenated_board_id_witness :
    (Yosemite.is_supported_board_id boardEC8Facts).1 = false ∧
    (Yosemite.is_supported_board_id boardConcatFacts).1 = true :=
  ⟨(yosemite_concatenated_board_id.2 boardEC8Facts rfl).1 (Or.inl rfl),
   (yosemite_concatenated_board_id.2 boardConcatFacts rfl).2 rfl⟩

/-- C1: the Release A verdict is Supported iff the board-id, CPU, memory and
OS version checks all pass; and from a host on which all four pass, flipping
any single check result to fail while the other three keep their passing
values yields the Unsupported verdict. -/
theorem yosemite_and_composition :
    (∀ f : HostFacts, Yosemite.verdict f = some (0, true) ↔
      yosemiteChecks f = (true, true, true, some true)) ∧
    (∀ f g : HostFacts, yosemiteChecks f = (true, true, true, some true) →
      (yosemiteChecks g = (false, true, true, some true) ∨
       yosemiteChecks g = (true, false, true, some true) ∨
       yosemiteChecks g = (true, true, false, some true) ∨
       yosemiteChecks g = (true, true, true, some false)) →
      Yosemite.verdict g = some (1, false)) := by
  have hchar : ∀ (f : HostFacts) (b c m : Bool) (s : Option Bool),
      yosemiteChecks f = (b, c, m, s) →
      Yosemite.verdict f =
        Option.map (fun sb => if b && m && c && sb then ((0 : Nat), true)
          else ((1 : Nat), false)) s := by
    intro f b c m s h
    simp only [yosemiteChecks, Prod.mk.injEq] at h
    obtain ⟨hb, hc, hm, hs⟩ := h
    simp only [Yosemite.verdict, hb, hc, hm]
    cases hv : Yosemite.is_system_version_supported f.productName f.productVersion with
    | none =>
      rw [hv] at hs
      simp only [Option.map_none'] at hs
      simp [hs.symm]
    | some sysv =>
      rw [hv] at hs
      simp only [Option.map_some'] at hs
      rw [hs.symm]
      simp only [Option.map_some']
      split <;> simp_all
  constructor
  · intro f
    rw [hchar f (Yosemite.is_supported_board_id f).1 (Yosemite.is_64bit_capable f).1
      (Yosemite.has_required_amount_of_memory f).1
      (Option.map Prod.fst
        (Yosemite.is_system_version_supported f.productName f.productVersion)) rfl]
    simp only [yosemiteChecks, Prod.mk.injEq]
    generalize (Yosemite.is_supported_board_id f).1 = b
    generalize (Yosemite.is_64bit_capable f).1 = c
    generalize (Yosemite.has_required_amount_of_memory f).1 = m
    generalize Option.map Prod.fst
      (Yosemite.is_system_version_supported f.productName f.productVersion) = s
    cases s with
    | none => simp
    | some sb => cases b <;> cases c <;> cases m <;> cases sb <;> simp
  · intro f g _ hg
    rcases hg with hg | hg | hg | hg <;> rw [hchar g _ _ _ _ hg] <;> rfl

/-- C1 witness: a host passing all four checks is Supported, and the same host
with only the memory fact failing is Unsupported. -/
theorem yosemite_and_composition_witness :
    Yosemite.verdict allPassFacts = some (0, true) ∧
    Yosemite.verdict lowMemFacts = some (1, false) :=
  ⟨(yosemite_and_composition.1 allPassFacts).mpr (by decide),
   yosemite_and_composition.2 allPassFacts lowMemFacts (by decide)
     (Or.inr (Or.inr (Or.inl (by decide))))⟩

/-- The fallible Release B version check returns a value whenever ProductVersion
parses under the StrictVersion model. -/
theorem hs_sysver_isSome (pn pv : String) (v : Nat × Nat × Nat)
    (h : strictVersionParse pv = some v) :
    ∃ sysv, HighSierra.is_system_version_supported pn pv = some sysv := by
  simp only [HighSierra.is_system_version_supported, h]
  split
  · exact ⟨_, rfl⟩
  · split
    · exact ⟨_, rfl⟩
    · exact ⟨_, rfl⟩

/-- C2: for a host whose ProductVersion parses, the Release B verdict is
Supported iff the host is a virtual machine, or the model, board-id and OS
version checks all pass; in particular a virtual machine is Supported no
matter what the other facts are. -/
theorem highsierra_or_composition :
    (∀ (f : HostFacts) (v : Nat × Nat × Nat),
      strictVersionParse f.productVersion = some v →
      (HighSierra.verdict f = some (0, true) ↔
        ((HighSierra.is_virtual_machine f).1 = true ∨
         ((HighSierra.is_supported_model f).1 = true ∧
          (HighSierra.is_supported_board_id f).1 = true ∧
          Option.map Prod.fst (HighSierra.is_system_version_supported f.productName
            f.productVersion) = some true)))) ∧
    (∀ (f : HostFacts) (v : Nat × Nat × Nat),
      strictVersionParse f.productVersion = some v →
      (HighSierra.is_virtual_machine f).1 = true →
      HighSierra.verdict f = some (0, true)) := by
  have hmain : ∀ (f : HostFacts) (v : Nat × Nat × Nat),
      strictVersionParse f.productVersion = some v →
      (HighSierra.verdict f = some (0, true) ↔
        ((HighSierra.is_virtual_machine f).1 = true ∨
         ((HighSierra.is_supported_model f).1 = true ∧
          (HighSierra.is_supported_board_id f).1 = true ∧
          Option.map Prod.fst (HighSierra.is_system_version_supported f.productName
            f.productVersion) = some true))) := by
    intro f v h
    obtain ⟨sysv, hv⟩ := hs_sysver_isSome f.productName f.productVersion v h
    simp only [HighSierra.verdict, hv, Option.map_some']
    cases hvm : (HighSierra.is_virtual_machine f).1 <;>
      cases hmo : (HighSierra.is_supported_model f).1 <;>
        cases hbo : (HighSierra.is_supported_board_id f).1 <;>
          cases hs : sysv.1 <;> simp [hvm, hmo, hbo, hs]
  exact ⟨hmain, fun f v h hvm => (hmain f v h).mpr (Or.inl hvm)⟩

/-- C2 witness: a virtual machine on which the model, board-id and OS version
checks all individually fail is still Supported. -/
theorem highsierra_or_composition_witness :
    HighSierra.verdict vmFacts = some (0, true) :=
  highsierra_or_composition.2 vmFacts (10, 4, 11) (by decide) (by decide)

/-- C4: version comparison is component-wise by integer value on dot-separated
segments, with a missing third segment read as 0; and the Release A version
check passes exactly when 10.6.6 is at most the parsed version, which is below
10.10, under this ordering. -/
theorem version_comparison_componentwise :
    strictVersionCompare ("10.6.6") ("10.6.10") = some Ordering.lt ∧
    strictVersionCompare ("10.10") ("10.6.6") = some Ordering.gt ∧
    strictVersionCompare ("10.8") ("10.8.0") = some Ordering.eq ∧
    (∀ (pn pv : String) (v : Nat × Nat × Nat), strictVersionParse pv = some v →
      (Option.map Prod.fst (Yosemite.is_system_version_supported pn pv) = some true ↔
        (verCompare v (10, 6, 6) ≠ Ordering.lt ∧
         verCompare v (10, 10, 0) = Ordering.lt))) := by
  refine ⟨by decide, by decide, by decide, fun pn pv v h => ?_⟩
  simp only [Yosemite.is_system_version_supported, h]
  by_cases h10 : verCompare v (10, 10, 0) ≠ Ordering.lt
  · rw [if_pos h10]
    simp [h10]
  · rw [if_neg h10]
    push_neg at h10
    by_cases h66 : verCompare v (10, 6, 6) ≠ Ordering.lt
    · rw [if_pos h66]
      simp [h10, h66]
    · rw [if_neg h66]
      push_neg at h66
      simp [h66]

/-- C4 witness at the concrete version 10.9.5. -/
theorem version_comparison_componentwise_witness :
    Option.map Prod.fst (Yosemite.is_system_version_supported ("Mac OS X") ("10.9.5")) =
        some true ↔
      (verCompare (10, 9, 5) (10, 6, 6) ≠ Ordering.lt ∧
       verCompare (10, 9, 5) (10, 10, 0) = Ordering.lt) :=
  version_comparison_componentwise.2.2.2 ("Mac OS X") ("10.9.5") (10, 9, 5) (by decide)

/-- C7: the read-merge-write of append_conditional_items preserves every key
other than the written verdict key and overwrites just that key; a second
write with a different value leaves only the latest value for that key. -/
theorem conditional_items_merge (V : Type) (existing : List (String × V)) (key : String)
    (v1 v2 : V) (out1 out2 : List (String × V))
    (h1 : append_conditional_items [(key, v1)] (some existing) true = some out1)
    (h2 : append_conditional_items [(key, v2)] (some out1) true = some out2) :
    (∀ k : String, k ≠ key →
      dictGet out1 k = dictGet existing k ∧ dictGet out2 k = dictGet existing k) ∧
    dictGet out1 key = some v1 ∧ dictGet out2 key = some v2 := by
  simp only [append_conditional_items, mergeInto, if_pos, Option.some.injEq] at h1 h2
  subst h1
  subst h2
  refine ⟨fun k hk => ⟨?_, ?_⟩, ?_, ?_⟩
  · rw [dictGet_dictAdd_single, if_neg (Ne.symm hk)]
  · rw [dictGet_dictAdd_single, if_neg (Ne.symm hk),
      dictGet_dictAdd_single, if_neg (Ne.symm hk)]
  · rw [dictGet_dictAdd_single, if_pos rfl]
  · rw [dictGet_dictAdd_single, if_pos rfl]

/-- C7 witness: one unrelated key survives a write, and the verdict key holds
the latest of two written values. -/
theorem conditional_items_merge_witness :
    dictGet (dictAdd exStore [("high_sierra_supported", true)]) ("unrelated_item") =
      dictGet exStore ("unrelated_item") ∧
    dictGet (dictAdd (dictAdd exStore [("high_sierra_supported", true)])
      [("high_sierra_supported", false)]) ("high_sierra_supported") = some false :=
  ⟨((conditional_items_merge Bool exStore ("high_sierra_supported") true false
      (dictAdd exStore [("high_sierra_supported", true)])
      (dictAdd (dictAdd exStore [("high_sierra_supported", true)])
        [("high_sierra_supported", false)]) rfl rfl).1
    ("unrelated_item") (by decide)).1,
   (conditional_items_merge Bool exStore ("high_sierra_supported") true false
      (dictAdd exStore [("high_sierra_supported", true)])
      (dictAdd (dictAdd exStore [("high_sierra_supported", true)])
        [("high_sierra_supported", false)]) rfl rfl).2.2⟩

/-- C10: the Yosemite script ships with the persisted-flag writer disabled, so
its main never touches the store; the High Sierra script ships with it
enabled, so whenever munki or gruntwork munki is installed (and the write
itself succeeds) its main writes the verdict flag into the store. -/
theorem persistence_defaults :
    Yosemite.update_munki_conditional_items = false ∧
    HighSierra.update_munki_conditional_items = true ∧
    (∀ (f : HostFacts) (env : Env),
      Yosemite.main f env = Option.map (fun p => (p.1, env.store)) (Yosemite.verdict f)) ∧
    (∀ (f : HostFacts) (env : Env),
      (env.munkiInstalled || env.gruntworkMunkiInstalled) = true →
      env.writeSucceeds = true →
      HighSierra.main f env = Option.map
        (fun p => (p.1, some (mergeInto env.store [("high_sierra_supported", p.2)])))
        (HighSierra.verdict f)) := by
  refine ⟨rfl, rfl, fun f env => ?_, fun f env hm hw => ?_⟩
  · cases hv : Yosemite.verdict f with
    | none => simp [Yosemite.main, hv]
    | some p =>
      obtain ⟨code, flag⟩ := p
      simp [Yosemite.main, hv, Yosemite.update_munki_conditional_items]
  · cases hv : HighSierra.verdict f with
    | none => simp [HighSierra.main, hv]
    | some p =>
      obtain ⟨code, flag⟩ := p
      simp [HighSierra.main, hv, HighSierra.update_munki_conditional_items, hm, hw,
        append_conditional_items]

/-- C10 witness: the Yosemite run leaves the concrete store untouched while
the High Sierra run writes its flag into it. -/
theorem persistence_defaults_witness :
    Yosemite.main allPassFacts writeOkEnv =
      Option.map (fun p => (p.1, writeOkEnv.store)) (Yosemite.verdict allPassFacts) ∧
    HighSierra.main vmFacts writeOkEnv = Option.map
      (fun p => (p.1, some (mergeInto writeOkEnv.store [("high_sierra_supported", p.2)])))
      (HighSierra.verdict vmFacts) :=
  ⟨persistence_defaults.2.2.1 allPassFacts writeOkEnv,
   persistence_defaults.2.2.2 vmFacts writeOkEnv rfl rfl⟩
